import Mathlib

/-!
Shallow embedding of the vSphere VM driver (`driver/vm.go`): configuration
model, spec compiler, device composer, and the lifecycle operations
(CreateVM, Clone, PowerOff, WaitForShutdown, AddCdrom).

External collaborators (the govmomi inventory/lookup/task layer) are
modelled as environment records of functions; pure govmomi device-list
helpers (key generation, controller creation, controller assignment) are
modelled directly after the library's behaviour.  Machine integers (int32,
int64) are modelled as `Int`; the Go values occurring here never approach
the overflow boundary and the source performs no wrapping arithmetic.

Field `Annotation` of the Go `CreateConfig` is rendered as `annot`.
-/

namespace VSphere

/-- `CloneConfig` from vm.go. -/
structure CloneConfig where
  Name         : String
  Folder       : String
  Host         : String
  ResourcePool : String
  Datastore    : String
  LinkedClone  : Bool
  deriving Repr, DecidableEq

/-- `HardwareConfig` from vm.go: CPUs is int32, the rest int64 / bool. -/
structure HardwareConfig where
  CPUs           : Int
  CPUReservation : Int
  CPULimit       : Int
  RAM            : Int
  RAMReservation : Int
  RAMReserveAll  : Bool
  deriving Repr, DecidableEq

/-- `DiskConfig` from vm.go. -/
structure DiskConfig where
  DiskSizeKB      : Int
  ThinProvisioned : Bool
  ControllerType  : String
  deriving Repr, DecidableEq

/-- `CreateConfig` from vm.go.  Go embeds `HardwareConfig` and `DiskConfig`
by field promotion; here they are explicit sub-records.  The Go field
`Annotation` is named `annot`. -/
structure CreateConfig where
  hardware     : HardwareConfig
  disk         : DiskConfig
  annot        : String
  Name         : String
  Folder       : String
  Host         : String
  ResourcePool : String
  Datastore    : String
  GuestOS      : String
  Network      : String
  Force        : Bool
  deriving Repr, DecidableEq

/-- govmomi `types.ResourceAllocationInfo` (the two fields vm.go sets; Go
zero value is 0 for both).  `limit` is a plain int64: the type has no
distinguished representation for "unlimited". -/
structure ResourceAllocationInfo where
  reservation : Int := 0
  limit       : Int := 0
  deriving Repr, DecidableEq

/-- The device payloads vm.go builds: IDE controller, SCSI controller of a
given type, flat-backed disk, ethernet card, cdrom with an ISO backing. -/
inductive DeviceKind where
  | ideController : DeviceKind
  | scsiController (ctype : String) : DeviceKind
  | disk (capacityInKB : Int) (thinProvisioned : Bool) (diskMode : String) : DeviceKind
  | ethernetCard (backing : String) : DeviceKind
  | cdrom (isoPath : String) : DeviceKind
  deriving Repr, DecidableEq

/-- A virtual device: key, optional controller attachment, payload
(govmomi `types.VirtualDevice` plus the concrete subtype data). -/
structure Device where
  key           : Int
  controllerKey : Option Int := none
  kind          : DeviceKind
  deriving Repr, DecidableEq

/-- One entry of a device-change set (govmomi
`types.VirtualDeviceConfigSpec`): an operation name and the device. -/
structure DeviceChangeSpec where
  operation : String
  device    : Device
  deriving Repr, DecidableEq

/-- govmomi `types.VirtualMachineFileInfo` (only `VmPathName` is set). -/
structure VirtualMachineFileInfo where
  vmPathName : String
  deriving Repr, DecidableEq

/-- The slice of govmomi `types.VirtualMachineConfigSpec` that vm.go
reads or writes.  Defaults are the Go zero values (`nil` pointers become
`none`). -/
structure VirtualMachineConfigSpec where
  numCPUs                      : Int := 0
  memoryMB                     : Int := 0
  cpuAllocation                : Option ResourceAllocationInfo := none
  memoryAllocation             : Option ResourceAllocationInfo := none
  memoryReservationLockedToMax : Option Bool := none
  name                         : String := ""
  annot                        : String := ""
  guestId                      : String := ""
  deviceChange                 : List DeviceChangeSpec := []
  files                        : Option VirtualMachineFileInfo := none
  deriving Repr, DecidableEq

/-- `HardwareConfig.toConfigSpec` from vm.go, line for line: CPU count and
RAM pass through; the CPU allocation carries reservation and limit
verbatim; the RAM allocation carries only the reservation (its limit stays
at the Go zero value 0); the reservation lock flag is copied. -/
def HardwareConfig.toConfigSpec (config : HardwareConfig) : VirtualMachineConfigSpec :=
  { numCPUs := config.CPUs
    memoryMB := config.RAM
    cpuAllocation := some { reservation := config.CPUReservation, limit := config.CPULimit }
    memoryAllocation := some { reservation := config.RAMReservation, limit := 0 }
    memoryReservationLockedToMax := some config.RAMReserveAll }

/-- `CreateConfig.toConfigSpec` from vm.go: delegate to the hardware
compiler, then overlay name, annotation and guest id. -/
def CreateConfig.toConfigSpec (config : CreateConfig) : VirtualMachineConfigSpec :=
  let confSpec := config.hardware.toConfigSpec
  { confSpec with
    name := config.Name
    annot := config.annot
    guestId := config.GuestOS }

/-! ### Device composer: govmomi `VirtualDeviceList` helpers

The govmomi device-list helpers used by vm.go are pure and deterministic;
they are modelled here after the library's behaviour (fresh negative keys,
SCSI type table, controller assignment by key). -/

/-- govmomi `VirtualDeviceList.NewKey`: a fresh temporary key, one below
the minimum of -200 and every key already in the list. -/
def newKey (devices : List Device) : Int :=
  (devices.foldl (fun k d => if d.key < k then d.key else k) (-200)) - 1

/-- The SCSI controller type names govmomi recognises. -/
def scsiControllerTypes : List String :=
  ["lsilogic", "buslogic", "pvscsi", "lsilogic-sas"]

/-- govmomi `CreateSCSIController` resolves the name "scsi" as an alias
for the first table entry. -/
def resolveSCSIAlias (bus : String) : String :=
  if bus = "scsi" then "lsilogic" else bus

/-- govmomi `VirtualDeviceList.CreateSCSIController`: an unrecognised
(alias-resolved) name is an error; on success the controller gets a fresh
key. -/
def createSCSIController (devices : List Device) (bus : String) :
    Except String Device :=
  if resolveSCSIAlias bus ∈ scsiControllerTypes then
    .ok { key := newKey devices, kind := .scsiController (resolveSCSIAlias bus) }
  else
    .error ("unknown SCSI controller type " ++ resolveSCSIAlias bus)

/-- govmomi `VirtualDeviceList.CreateIDEController`: always succeeds,
returning an IDE controller with a fresh key (vm.go checks its error
return, which is statically nil). -/
def createIDEController (devices : List Device) : Device :=
  { key := newKey devices, kind := .ideController }

/-- govmomi `VirtualDeviceList.FindDiskController`, specialised to how
vm.go calls it: the controller was just appended and is looked up by its
(unique) generated name; name lookup is modelled by key lookup.  Errors
when no disk controller with that key is in the list. -/
def findDiskController (devices : List Device) (key : Int) :
    Except String Device :=
  match devices.find? (fun d =>
      d.key == key && (match d.kind with
                       | .scsiController _ => true
                       | .ideController => true
                       | _ => false)) with
  | some c => .ok c
  | none => .error "no disk controller found"

/-- govmomi `VirtualDeviceList.AssignController`: point the device at the
controller's key. -/
def assignController (device : Device) (controller : Device) : Device :=
  { device with controllerKey := some controller.key }

/-- govmomi `VirtualDeviceList.FindIDEController("")`: the first IDE
controller in the list, or an error. -/
def findIDEController (devices : List Device) : Except String Device :=
  match devices.find? (fun d => d.kind == DeviceKind.ideController) with
  | some c => .ok c
  | none => .error "no available IDE controller"

/-- govmomi `VirtualDeviceList.CreateCdrom(ide)`: a cdrom bound to the
given IDE controller, with a fresh key and an empty backing (vm.go checks
its error return, which is statically nil on a valid controller). -/
def createCdrom (devices : List Device) (ide : Device) : Device :=
  assignController { key := newKey devices, kind := .cdrom "" } ide

/-- govmomi `VirtualDeviceList.InsertIso`: set the cdrom's backing to the
ISO path. -/
def insertIso (device : Device) (isoPath : String) : Device :=
  { device with kind := .cdrom isoPath }

/-- govmomi `EthernetCardTypes().CreateEthernetCard(name, backing)`: vm.go
passes name "", which selects the default card type; the card carries the
resolved network backing.  The library does not assign a list key here
(the Go zero value 0 remains). -/
def createEthernetCard (backing : String) : Device :=
  { key := 0, kind := .ethernetCard backing }

/-- govmomi `VirtualDeviceList.ConfigSpec(add)`: one add-entry per device,
in list order. -/
def configSpecAdd (devices : List Device) : List DeviceChangeSpec :=
  devices.map (fun d => { operation := "add", device := d })

/-! ### Device composer: vm.go `addCdrom`, `addDisk`, `addNetwork` -/

/-- `addCdrom` from vm.go (create-time): appends an IDE controller — and,
despite its name, nothing else.  Its Go error return is always nil. -/
def addCdrom (devices : List Device) : Except String (List Device) :=
  .ok (devices ++ [createIDEController devices])

/-- `addDisk` from vm.go: create a SCSI controller of the configured type
and append it, re-find it as the disk controller, reject the explicitly
unimplemented `DiskSizeKB == 0` sizing path, otherwise build a persistent
flat-backed disk with a fresh key, bind it to the controller and append
it.  Any error aborts with no list returned (Go returns `nil, err`). -/
def addDisk (devices : List Device) (config : CreateConfig) :
    Except String (List Device) :=
  match createSCSIController devices config.disk.ControllerType with
  | .error e => .error e
  | .ok device =>
    let devices := devices ++ [device]
    match findDiskController devices device.key with
    | .error e => .error e
    | .ok controller =>
      if config.disk.DiskSizeKB = 0 then
        .error "not implemented"
      else
        let disk : Device :=
          { key := newKey devices
            kind := .disk config.disk.DiskSizeKB config.disk.ThinProvisioned
                      "persistent" }
        let disk := assignController disk controller
        .ok (devices ++ [disk])

/-! ### External collaborators and lifecycle operations

Inventory lookup, datastore file queries, the template's snapshot info and
remote task outcomes are external collaborators; each operation takes them
as an environment of functions.  Each effectful operation returns its Go
result paired with a record of the remote creation/reconfiguration call it
submitted (`none` when control never reached the submission). -/

/-- An opaque managed object reference. -/
abbrev ManagedRef := Nat

/-- A resolved datastore: its reference, its name, and the set of paths
that exist on it (backing `Datastore.FileExists`). -/
structure Datastore where
  ref           : ManagedRef
  name          : String
  existingFiles : List String
  deriving Repr, DecidableEq

/-- `Datastore.FileExists`. -/
def Datastore.fileExists (ds : Datastore) (path : String) : Bool :=
  ds.existingFiles.contains path

/-- `Datastore.Path`: the full datastore path of a file. -/
def Datastore.dsPath (ds : Datastore) (path : String) : String :=
  "[" ++ ds.name ++ "] " ++ path

/-- `types.VirtualMachinePowerStatePoweredOff`. -/
def poweredOffState : String := "poweredOff"

/-- The create call `Folder.CreateVM(ctx, spec, pool, host)` submits. -/
structure CreateVMCall where
  spec   : VirtualMachineConfigSpec
  folder : ManagedRef
  pool   : ManagedRef
  host   : ManagedRef
  deriving Repr, DecidableEq

/-- The environment `Driver.CreateVM` consumes: the finder collaborators,
the device-change builder `VirtualDeviceList.ConfigSpec` (fallible in the
library, hence a field), and the combined outcome of submitting the create
task and waiting for its result. -/
structure DriverEnv where
  findFolder              : String → Except String ManagedRef
  findResourcePool        : String → String → Except String ManagedRef
  findHost                : String → Except String ManagedRef
  findDatastoreOrDefault  : String → Except String Datastore
  networkOrDefault        : String → Except String ManagedRef
  ethernetCardBackingInfo : ManagedRef → Except String String
  configSpecForAdd        : List Device → Except String (List DeviceChangeSpec)
  createVMResult          : CreateVMCall → Except String ManagedRef

/-- `addNetwork` from vm.go: resolve the network, derive its ethernet-card
backing, append a default-type card. -/
def addNetwork (d : DriverEnv) (devices : List Device) (config : CreateConfig) :
    Except String (List Device) :=
  match d.networkOrDefault config.Network with
  | .error e => .error e
  | .ok network =>
    match d.ethernetCardBackingInfo network with
    | .error e => .error e
    | .ok backing => .ok (devices ++ [createEthernetCard backing])

/-- The vmx path `<Name>/<Name>.vmx` that `Driver.CreateVM` checks. -/
def vmxPath (config : CreateConfig) : String :=
  config.Name ++ "/" ++ config.Name ++ ".vmx"

/-- Everything `Driver.CreateVM` does before submitting the create task,
in source order: compile the spec; resolve folder, pool, host, datastore;
unless Force, fail if the vmx backing file already exists; compose the
device list (IDE controller, then SCSI controller and disk, then network
adapter); build the device-change set; set the files path.  Returns the
fully prepared create call. -/
def createVMPrep (d : DriverEnv) (config : CreateConfig) :
    Except String CreateVMCall :=
  let createSpec := config.toConfigSpec
  match d.findFolder config.Folder with
  | .error e => .error e
  | .ok folder =>
    match d.findResourcePool config.Host config.ResourcePool with
    | .error e => .error e
    | .ok resourcePool =>
      match d.findHost config.Host with
      | .error e => .error e
      | .ok host =>
        match d.findDatastoreOrDefault config.Datastore with
        | .error e => .error e
        | .ok datastore =>
          if !config.Force && datastore.fileExists (vmxPath config) then
            .error ("File " ++ datastore.dsPath (vmxPath config) ++ " already exists")
          else
            match addCdrom [] with
            | .error e => .error e
            | .ok devices0 =>
              match addDisk devices0 config with
              | .error e => .error e
              | .ok devices1 =>
                match addNetwork d devices1 config with
                | .error e => .error e
                | .ok devices2 =>
                  match d.configSpecForAdd devices2 with
                  | .error e => .error e
                  | .ok deviceChange =>
                    .ok { spec := { createSpec with
                            deviceChange := deviceChange
                            files := some { vmPathName := "[" ++ datastore.name ++ "]" } }
                          folder := folder, pool := resourcePool, host := host }

/-- `Driver.CreateVM`: prepare, then submit the create task and wait.  The
second component records the submitted call, `none` when preparation
failed before submission. -/
def createVM (d : DriverEnv) (config : CreateConfig) :
    Except String ManagedRef × Option CreateVMCall :=
  match createVMPrep d config with
  | .error e => (.error e, none)
  | .ok call => (d.createVMResult call, some call)

/-- govmomi `types.VirtualMachineRelocateSpec` (the fields vm.go sets;
defaults are Go zero values). -/
structure VirtualMachineRelocateSpec where
  pool         : Option ManagedRef := none
  datastore    : Option ManagedRef := none
  diskMoveType : String := ""
  deriving Repr, DecidableEq

/-- govmomi `types.VirtualMachineCloneSpec` (the fields vm.go sets). -/
structure VirtualMachineCloneSpec where
  location : VirtualMachineRelocateSpec := {}
  powerOn  : Bool := false
  snapshot : Option ManagedRef := none
  deriving Repr, DecidableEq

/-- govmomi `types.VirtualMachineSnapshotInfo` (the field vm.go reads). -/
structure VirtualMachineSnapshotInfo where
  currentSnapshot : Option ManagedRef := none
  deriving Repr, DecidableEq

/-- The clone call `vm.Clone(ctx, folder, name, spec)` submits. -/
structure CloneCall where
  folder : ManagedRef
  name   : String
  spec   : VirtualMachineCloneSpec
  deriving Repr, DecidableEq

/-- The environment `VirtualMachine.Clone` consumes: the finder
collaborators, the template's `Info("snapshot")` result (`none` models a
nil `Snapshot` pointer), and the combined outcome of submitting the clone
task and waiting for its result. -/
structure CloneEnv where
  findFolder             : String → Except String ManagedRef
  findResourcePool       : String → String → Except String ManagedRef
  findDatastoreOrDefault : String → Except String Datastore
  infoSnapshot           : Except String (Option VirtualMachineSnapshotInfo)
  cloneResult            : CloneCall → Except String ManagedRef

/-- Everything `VirtualMachine.Clone` does before submitting the clone
task, in source order: resolve folder, pool, datastore; build the relocate
and clone specs with PowerOn false; when LinkedClone, set the child-disk
move type, fetch the template's snapshot info, fail if it has none, else
take its current snapshot. -/
def clonePrep (d : CloneEnv) (config : CloneConfig) : Except String CloneCall :=
  match d.findFolder config.Folder with
  | .error e => .error e
  | .ok folder =>
    match d.findResourcePool config.Host config.ResourcePool with
    | .error e => .error e
    | .ok pool =>
      match d.findDatastoreOrDefault config.Datastore with
      | .error e => .error e
      | .ok datastore =>
        let relocateSpec : VirtualMachineRelocateSpec :=
          { pool := some pool, datastore := some datastore.ref }
        let cloneSpec : VirtualMachineCloneSpec :=
          { location := relocateSpec, powerOn := false }
        if config.LinkedClone then
          let cloneSpec := { cloneSpec with
            location := { cloneSpec.location with
              diskMoveType := "createNewChildDiskBacking" } }
          match d.infoSnapshot with
          | .error e => .error e
          | .ok none => .error "`linked_clone=true`, but template has no snapshots"
          | .ok (some info) =>
            .ok { folder := folder, name := config.Name,
                  spec := { cloneSpec with snapshot := info.currentSnapshot } }
        else
          .ok { folder := folder, name := config.Name, spec := cloneSpec }

/-- `VirtualMachine.Clone`: prepare, then submit the clone task and wait.
The second component records the submitted call. -/
def clone (d : CloneEnv) (config : CloneConfig) :
    Except String ManagedRef × Option CloneCall :=
  match clonePrep d config with
  | .error e => (.error e, none)
  | .ok call => (d.cloneResult call, some call)

/-- The environment `VirtualMachine.PowerOff` consumes: the remote power
state read, and the combined outcome of submitting the power-off task and
waiting for it. -/
structure PowerEnv where
  powerState     : Except String String
  powerOffResult : Except String Unit

/-- `VirtualMachine.PowerOff`: read the power state; if already powered
off return success; otherwise submit the power-off task and wait.  The
Bool records whether the power-off task was submitted. -/
def powerOff (env : PowerEnv) : Except String Unit × Bool :=
  match env.powerState with
  | .error e => (.error e, false)
  | .ok state =>
    if state = poweredOffState then (.ok (), false)
    else (env.powerOffResult, true)

/-- The polling loop of `VirtualMachine.WaitForShutdown`, with time
modelled in whole seconds: poll `n` happens after `n` one-second sleeps,
and the `time.After(timeout)` timer has fired at poll `n` exactly when
`remaining` (the number of seconds left on the timer, initially the
timeout) has reached 0.  Returns the Go result paired with the number of
power-state polls performed. -/
def waitForShutdownLoop (powerStateAt : Nat → Except String String) :
    Nat → Nat → Except String Unit × Nat
  | 0, n =>
    match powerStateAt n with
    | .error e => (.error e, n + 1)
    | .ok s =>
      if s = poweredOffState then (.ok (), n + 1)
      else (.error "Timeout while waiting for machine to shut down.", n + 1)
  | r + 1, n =>
    match powerStateAt n with
    | .error e => (.error e, n + 1)
    | .ok s =>
      if s = poweredOffState then (.ok (), n + 1)
      else waitForShutdownLoop powerStateAt r (n + 1)

/-- `VirtualMachine.WaitForShutdown` with a timeout of `timeoutSec` whole
seconds: poll the power state once per second until powered off, a read
error, or timer expiry. -/
def waitForShutdown (powerStateAt : Nat → Except String String)
    (timeoutSec : Nat) : Except String Unit × Nat :=
  waitForShutdownLoop powerStateAt timeoutSec 0

/-- The environment `VirtualMachine.AddCdrom` consumes: the VM's current
device list, the fallible device-change builder
`VirtualDeviceList.ConfigSpec`, and the combined outcome of submitting the
reconfigure task and waiting for it. -/
structure AddCdromEnv where
  deviceList        : Except String (List Device)
  configSpecForAdd  : List Device → Except String (List DeviceChangeSpec)
  reconfigureResult : VirtualMachineConfigSpec → Except String Unit

/-- `VirtualMachine.AddCdrom`: fetch the device list, find the IDE
controller, create a cdrom on it, insert the ISO, build the device-change
set — whose error return the source overwrites without checking, so on
failure the nil (empty) change list is used — and submit the reconfigure
task.  The second component records the submitted reconfigure spec. -/
def vmAddCdrom (env : AddCdromEnv) (isoPath : String) :
    Except String Unit × Option VirtualMachineConfigSpec :=
  match env.deviceList with
  | .error e => (.error e, none)
  | .ok devices =>
    match findIDEController devices with
    | .error e => (.error e, none)
    | .ok ide =>
      let cdromDev := createCdrom devices ide
      let cdromDev := insertIso cdromDev isoPath
      let newDevices := [cdromDev]
      let deviceChange :=
        match env.configSpecForAdd newDevices with
        | .ok dc => dc
        | .error _ => []
      let confSpec : VirtualMachineConfigSpec := { deviceChange := deviceChange }
      (env.reconfigureResult confSpec, some confSpec)

/-! ### Helper lemmas -/

/-- The running minimum underlying `newKey` is bounded by its seed and by
every key in the list. -/
theorem newKey_foldl_le (devices : List Device) (init : Int) :
    devices.foldl (fun k d => if d.key < k then d.key else k) init ≤ init ∧
    ∀ d ∈ devices, devices.foldl (fun k d => if d.key < k then d.key else k) init ≤ d.key := by
  induction devices generalizing init with
  | nil => simp
  | cons hd tl ih =>
    have hm1 : (if hd.key < init then hd.key else init) ≤ init := by
      by_cases hc : hd.key < init
      · rw [if_pos hc]; omega
      · rw [if_neg hc]
    have hm2 : (if hd.key < init then hd.key else init) ≤ hd.key := by
      by_cases hc : hd.key < init
      · rw [if_pos hc]
      · rw [if_neg hc]; omega
    have h1 := (ih (if hd.key < init then hd.key else init)).1
    have h2 := (ih (if hd.key < init then hd.key else init)).2
    simp only [List.foldl_cons]
    refine ⟨le_trans h1 hm1, ?_⟩
    intro d hmem
    rw [List.mem_cons] at hmem
    cases hmem with
    | inl heq => subst heq; exact le_trans h1 hm2
    | inr htl => exact h2 d htl

/-- A freshly generated key is strictly below every key already present:
fresh keys never collide with the list. -/
theorem newKey_lt (devices : List Device) : ∀ d ∈ devices, newKey devices < d.key := by
  intro d hd
  have h := (newKey_foldl_le devices (-200)).2 d hd
  have h2 : newKey devices =
      (devices.foldl (fun k d => if d.key < k then d.key else k) (-200)) - 1 := rfl
  omega

/-- A successful `createSCSIController` returns a SCSI controller of the
(alias-resolved) requested type carrying the fresh key. -/
theorem createSCSIController_ok_shape (devices : List Device) (bus : String) (ctl : Device)
    (h : createSCSIController devices bus = .ok ctl) :
    ctl.key = newKey devices ∧ ctl.controllerKey = none ∧
    ctl.kind = .scsiController (resolveSCSIAlias bus) := by
  simp only [createSCSIController] at h
  split at h
  · injection h with h2
    subst h2
    exact ⟨rfl, rfl, rfl⟩
  · simp at h

/-- Looking a just-appended controller up by its fresh key finds exactly
that controller. -/
theorem findDiskController_append (devices : List Device) (ctl : Device) (b : String)
    (hkey : ctl.key = newKey devices) (hkind : ctl.kind = .scsiController b) :
    findDiskController (devices ++ [ctl]) ctl.key = .ok ctl := by
  unfold findDiskController
  rw [List.find?_append]
  have hnone : devices.find? (fun d =>
      d.key == ctl.key && (match d.kind with
                           | .scsiController _ => true
                           | .ideController => true
                           | _ => false)) = none := by
    rw [List.find?_eq_none]
    intro x hx
    have hlt := newKey_lt devices x hx
    intro hcon
    rw [Bool.and_eq_true, beq_iff_eq] at hcon
    obtain ⟨hkeq, -⟩ := hcon
    omega
  rw [hnone]
  simp [List.find?, hkind]

/-! ### Concrete inputs used by counterexamples and witnesses -/

/-- A small hardware config with CPULimit 0 (the unlimited sentinel). -/
def hwSmall : HardwareConfig :=
  { CPUs := 1, CPUReservation := 0, CPULimit := 0, RAM := 512,
    RAMReservation := 0, RAMReserveAll := false }

/-- A create config with the explicitly unimplemented DiskSizeKB = 0. -/
def cfgZeroDisk : CreateConfig :=
  { hardware := hwSmall
    disk := { DiskSizeKB := 0, ThinProvisioned := false, ControllerType := "pvscsi" }
    annot := "", Name := "vm1", Folder := "", Host := "esxi-1", ResourcePool := "",
    Datastore := "", GuestOS := "otherGuest", Network := "", Force := false }

/-- A create config with a negative disk size. -/
def cfgNegDisk : CreateConfig :=
  { cfgZeroDisk with
    disk := { DiskSizeKB := -1, ThinProvisioned := false, ControllerType := "pvscsi" } }

/-! ### C7 -/

/-- C7: compiling a HardwareConfig, and a CreateConfig (which delegates to
the hardware compiler and overlays name, annotation and guest-OS id), is
pure and deterministic — compiling twice yields identical output — and
CPU/memory values pass through unit-for-unit with no scaling. -/
theorem toConfigSpec_pure_passthrough (hw : HardwareConfig) (cc : CreateConfig) :
    hw.toConfigSpec = hw.toConfigSpec ∧
    cc.toConfigSpec = cc.toConfigSpec ∧
    (hw.toConfigSpec).numCPUs = hw.CPUs ∧
    (hw.toConfigSpec).memoryMB = hw.RAM ∧
    (hw.toConfigSpec).cpuAllocation =
      some { reservation := hw.CPUReservation, limit := hw.CPULimit } ∧
    (hw.toConfigSpec).memoryAllocation =
      some { reservation := hw.RAMReservation, limit := 0 } ∧
    (hw.toConfigSpec).memoryReservationLockedToMax = some hw.RAMReserveAll ∧
    cc.toConfigSpec = { cc.hardware.toConfigSpec with
      name := cc.Name, annot := cc.annot, guestId := cc.GuestOS } :=
  ⟨rfl, rfl, rfl, rfl, rfl, rfl, rfl, rfl⟩

/-! ### C1 -/

/-- C1 counterexample: compiling `hwSmall` (CPULimit = 0) yields a CPU
allocation whose limit field is the literal 0 — the zero sentinel IS
compiled to a literal zero-valued limit, and the output type carries no
separate "unlimited" marker, contradicting the claim that the sentinel is
never compiled to a literal zero-capacity limit. -/
theorem compile_cpuLimit_zero_is_literal_zero :
    (hwSmall.toConfigSpec).cpuAllocation = some { reservation := 0, limit := 0 } := by
  rfl

/-- C1 (amended): compiling a HardwareConfig with CPULimit = 0 passes the
sentinel through verbatim — the output CPU allocation has limit literally
0, with no explicit unlimited encoding — and that output is nevertheless
distinguishable from compiling the same config with CPULimit = 1. -/
theorem compile_cpuLimit_zero_passthrough (hw : HardwareConfig) (h : hw.CPULimit = 0) :
    (hw.toConfigSpec).cpuAllocation = some { reservation := hw.CPUReservation, limit := 0 } ∧
    hw.toConfigSpec ≠ ({ hw with CPULimit := 1 } : HardwareConfig).toConfigSpec := by
  constructor
  · simp [HardwareConfig.toConfigSpec, h]
  · intro hEq
    have h2 := congrArg VirtualMachineConfigSpec.cpuAllocation hEq
    simp [HardwareConfig.toConfigSpec, h] at h2

/-- C1 witness: the amended statement at the concrete config `hwSmall`. -/
theorem compile_cpuLimit_zero_passthrough_witness :
    (hwSmall.toConfigSpec).cpuAllocation =
      some { reservation := hwSmall.CPUReservation, limit := 0 } ∧
    hwSmall.toConfigSpec ≠ ({ hwSmall with CPULimit := 1 } : HardwareConfig).toConfigSpec :=
  compile_cpuLimit_zero_passthrough hwSmall rfl

/-! ### C2 -/

/-- C2 counterexample: `addDisk` on a config with DiskSizeKB = -1 (≤ 0)
succeeds and silently appends a disk of negative capacity, bound to the
fresh SCSI controller — the claim that every DiskSizeKB ≤ 0 fails is
false: only equality with zero is guarded. -/
theorem addDisk_negative_size_succeeds :
    cfgNegDisk.disk.DiskSizeKB ≤ 0 ∧
    addDisk [] cfgNegDisk =
      .ok [ { key := -201, controllerKey := none, kind := .scsiController "pvscsi" },
            { key := -202, controllerKey := some (-201),
              kind := .disk (-1) false "persistent" } ] := by
  constructor
  · decide
  · rfl

/-- C2 (amended): for every device list and every CreateConfig whose
DiskSizeKB is 0 and whose controller type the SCSI factory accepts,
`addDisk` fails with the explicit "not implemented" error and returns no
list at all (so no zero-size disk is ever appended); sizes below zero are
not rejected — the guard checks equality with zero only. -/
theorem addDisk_zero_not_implemented (devices : List Device) (config : CreateConfig)
    (ctl : Device)
    (hsz : config.disk.DiskSizeKB = 0)
    (hctl : createSCSIController devices config.disk.ControllerType = .ok ctl) :
    addDisk devices config = .error "not implemented" := by
  obtain ⟨hkey, _, hkind⟩ := createSCSIController_ok_shape _ _ _ hctl
  have hfind := findDiskController_append devices ctl _ hkey hkind
  simp only [addDisk, hctl, hfind, hsz]
  simp

/-- C2 witness: the amended statement at the concrete config
`cfgZeroDisk` on the empty device list. -/
theorem addDisk_zero_not_implemented_witness :
    addDisk [] cfgZeroDisk = .error "not implemented" :=
  addDisk_zero_not_implemented [] cfgZeroDisk
    { key := -201, controllerKey := none, kind := .scsiController "pvscsi" }
    rfl rfl

/-! ### C5 -/

/-- A power environment whose VM is already powered off; its power-off
task would fail if it were ever (wrongly) submitted. -/
def powerEnvOff : PowerEnv :=
  { powerState := .ok "poweredOff", powerOffResult := .error "task must not be submitted" }

/-- C5: PowerOff reads the remote power state first; when the VM is
already powered off it returns success without submitting a power-off
task, and only otherwise does it submit the task and return its waited
result. -/
theorem powerOff_idempotent (env : PowerEnv) (s : String)
    (h : env.powerState = .ok s) :
    (s = poweredOffState → powerOff env = (.ok (), false)) ∧
    (s ≠ poweredOffState → powerOff env = (env.powerOffResult, true)) := by
  constructor
  · intro hs
    simp [powerOff, h, hs]
  · intro hs
    simp [powerOff, h, hs]

/-- C5 witness: the statement at the already-powered-off environment. -/
theorem powerOff_idempotent_witness :
    ("poweredOff" = poweredOffState → powerOff powerEnvOff = (.ok (), false)) ∧
    ("poweredOff" ≠ poweredOffState →
      powerOff powerEnvOff = (powerEnvOff.powerOffResult, true)) :=
  powerOff_idempotent powerEnvOff "poweredOff" rfl

/-! ### C8 -/

/-- Against power-state reads that never report powered-off, the shutdown
polling loop runs exactly `remaining + 1` further polls and ends in the
timeout error. -/
theorem waitForShutdownLoop_never_off (ps : Nat → Except String String)
    (h : ∀ n, ∃ s, ps n = .ok s ∧ s ≠ poweredOffState) :
    ∀ r n, waitForShutdownLoop ps r n =
      (.error "Timeout while waiting for machine to shut down.", n + r + 1) := by
  intro r
  induction r with
  | zero =>
    intro n
    obtain ⟨s, hs, hne⟩ := h n
    simp [waitForShutdownLoop, hs, hne]
  | succ r ih =>
    intro n
    obtain ⟨s, hs, hne⟩ := h n
    have harith : n + 1 + r + 1 = n + (r + 1) + 1 := by omega
    simp [waitForShutdownLoop, hs, hne, ih (n + 1), harith]

/-- C8: for every positive timeout, WaitForShutdown against a VM whose
power state never reads as powered-off terminates after exactly
timeout + 1 once-per-second polls — a bounded margin of the timeout — and
returns the timeout error, never success. -/
theorem waitForShutdown_times_out (ps : Nat → Except String String) (timeoutSec : Nat)
    (hpos : 0 < timeoutSec)
    (hnever : ∀ n, ∃ s, ps n = .ok s ∧ s ≠ poweredOffState) :
    waitForShutdown ps timeoutSec =
      (.error "Timeout while waiting for machine to shut down.", timeoutSec + 1) := by
  have h := waitForShutdownLoop_never_off ps hnever timeoutSec 0
  simpa [waitForShutdown] using h

/-- C8 witness: a 2-second timeout against a VM that always reads
powered-on returns the timeout error after 3 polls. -/
theorem waitForShutdown_times_out_witness :
    waitForShutdown (fun _ => .ok "poweredOn") 2 =
      (.error "Timeout while waiting for machine to shut down.", 3) :=
  waitForShutdown_times_out (fun _ => .ok "poweredOn") 2 (by norm_num)
    (fun _ => ⟨"poweredOn", rfl, by decide⟩)

/-! ### C9 -/

/-- An existing IDE controller on the remote VM. -/
def ide0 : Device := { key := 200, kind := .ideController }

/-- An AddCdrom environment whose device-change builder fails. -/
def cdromEnvErr : AddCdromEnv :=
  { deviceList := .ok [ide0]
    configSpecForAdd := fun _ => .error "device-change build failed"
    reconfigureResult := fun _ => .ok () }

/-- C9: in AddCdrom, an error returned while building the ISO
device-change set is not checked before the reconfigure call: the
reconfigure task is still submitted — with the nil (empty) change list —
and the build error never surfaces; the operation's result is whatever the
reconfigure task returns. -/
theorem addCdrom_ignores_build_error (env : AddCdromEnv) (isoPath : String)
    (devices : List Device) (ide : Device) (e : String)
    (hdev : env.deviceList = .ok devices)
    (hide : findIDEController devices = .ok ide)
    (herr : env.configSpecForAdd [insertIso (createCdrom devices ide) isoPath] = .error e) :
    (vmAddCdrom env isoPath).2 = some { deviceChange := [] } ∧
    (vmAddCdrom env isoPath).1 = env.reconfigureResult { deviceChange := [] } := by
  constructor
  · simp [vmAddCdrom, hdev, hide, herr]
  · simp [vmAddCdrom, hdev, hide, herr]

/-- C9 witness: the statement at the failing-builder environment. -/
theorem addCdrom_ignores_build_error_witness :
    (vmAddCdrom cdromEnvErr "iso/linux.iso").2 = some { deviceChange := [] } ∧
    (vmAddCdrom cdromEnvErr "iso/linux.iso").1 =
      cdromEnvErr.reconfigureResult { deviceChange := [] } :=
  addCdrom_ignores_build_error cdromEnvErr "iso/linux.iso" [ide0] ide0
    "device-change build failed" rfl rfl rfl

/-! ### C10 -/

/-- Every clone call prepared by `clonePrep` carries PowerOn = false. -/
theorem clonePrep_powerOn_false (d : CloneEnv) (config : CloneConfig) (call : CloneCall)
    (h : clonePrep d config = .ok call) : call.spec.powerOn = false := by
  simp only [clonePrep] at h
  cases h1 : d.findFolder config.Folder with
  | error e => rw [h1] at h; simp at h
  | ok folder =>
    rw [h1] at h
    cases h2 : d.findResourcePool config.Host config.ResourcePool with
    | error e => rw [h2] at h; simp at h
    | ok pool =>
      rw [h2] at h
      cases h3 : d.findDatastoreOrDefault config.Datastore with
      | error e => rw [h3] at h; simp at h
      | ok ds =>
        rw [h3] at h
        by_cases hl : config.LinkedClone = true
        · simp only [hl, if_true] at h
          cases h4 : d.infoSnapshot with
          | error e => rw [h4] at h; simp at h
          | ok snap =>
            rw [h4] at h
            cases snap with
            | none => simp at h
            | some info =>
              simp at h
              rw [← h]
        · simp only [hl] at h
          simp at h
          rw [← h]

/-- C10: for every CloneConfig, any clone call Clone submits has PowerOn
false — a cloned VM is always created powered off, regardless of
configuration. -/
theorem clone_powerOn_false (d : CloneEnv) (config : CloneConfig) (call : CloneCall)
    (h : (clone d config).2 = some call) : call.spec.powerOn = false := by
  unfold clone at h
  cases hprep : clonePrep d config with
  | error e => rw [hprep] at h; simp at h
  | ok c =>
    rw [hprep] at h
    simp at h
    rw [← h]
    exact clonePrep_powerOn_false d config c hprep

/-- A clone environment for a template with one snapshot, plus a
non-linked clone request against it. -/
def cloneEnvSnap : CloneEnv :=
  { findFolder := fun _ => .ok 11
    findResourcePool := fun _ _ => .ok 12
    findDatastoreOrDefault := fun _ => .ok { ref := 13, name := "ds1", existingFiles := [] }
    infoSnapshot := .ok (some { currentSnapshot := some 77 })
    cloneResult := fun _ => .ok 99 }

/-- A clone request with LinkedClone off. -/
def cloneCfgFull : CloneConfig :=
  { Name := "clone1", Folder := "", Host := "esxi-1", ResourcePool := "",
    Datastore := "", LinkedClone := false }

/-- C10 witness: the submitted call of a concrete clone has PowerOn
false. -/
theorem clone_powerOn_false_witness :
    ((clone cloneEnvSnap cloneCfgFull).2.getD
        { folder := 0, name := "", spec := { powerOn := true } }).spec.powerOn = false :=
  clone_powerOn_false cloneEnvSnap cloneCfgFull
    ((clone cloneEnvSnap cloneCfgFull).2.getD
        { folder := 0, name := "", spec := { powerOn := true } }) rfl

/-! ### C3 -/

/-- A datastore already holding the backing file `vm1/vm1.vmx`. -/
def dsExisting : Datastore :=
  { ref := 4, name := "datastore1", existingFiles := ["vm1/vm1.vmx"] }

/-- A driver environment whose lookups all succeed and whose datastore
already holds `vm1/vm1.vmx`. -/
def envExisting : DriverEnv :=
  { findFolder := fun _ => .ok 1
    findResourcePool := fun _ _ => .ok 2
    findHost := fun _ => .ok 3
    findDatastoreOrDefault := fun _ => .ok dsExisting
    networkOrDefault := fun _ => .ok 5
    ethernetCardBackingInfo := fun _ => .ok "VM Network"
    configSpecForAdd := fun devs => .ok (configSpecAdd devs)
    createVMResult := fun _ => .ok 9 }

/-- C3: with Force false and the backing file `<Name>/<Name>.vmx` already
present on the resolved datastore, CreateVM returns an error and never
submits a create task — the existence check precedes any remote creation
side effect. -/
theorem createVM_no_overwrite (d : DriverEnv) (config : CreateConfig) (ds : Datastore)
    (hforce : config.Force = false)
    (hds : d.findDatastoreOrDefault config.Datastore = .ok ds)
    (hfile : ds.fileExists (vmxPath config) = true) :
    ((createVM d config).1).isOk = false ∧ (createVM d config).2 = none := by
  have hprep : (createVMPrep d config).isOk = false := by
    simp only [createVMPrep]
    cases h1 : d.findFolder config.Folder with
    | error e => rfl
    | ok folder =>
      cases h2 : d.findResourcePool config.Host config.ResourcePool with
      | error e => rfl
      | ok pool =>
        cases h3 : d.findHost config.Host with
        | error e => rfl
        | ok host =>
          simp [hds, hforce, hfile, Except.isOk, Except.toBool]
  cases hp : createVMPrep d config with
  | ok c => rw [hp] at hprep; simp [Except.isOk, Except.toBool] at hprep
  | error e =>
    constructor
    · simp [createVM, hp, Except.isOk, Except.toBool]
    · simp [createVM, hp]

/-- C3 witness: the statement at the concrete environment with the
backing file present and a Force-false config named `vm1`. -/
theorem createVM_no_overwrite_witness :
    ((createVM envExisting cfgZeroDisk).1).isOk = false ∧
    (createVM envExisting cfgZeroDisk).2 = none :=
  createVM_no_overwrite envExisting cfgZeroDisk dsExisting rfl rfl rfl

/-! ### C4 -/

/-- A linked-clone request. -/
def cloneCfgLinked : CloneConfig :=
  { Name := "clone1", Folder := "", Host := "esxi-1", ResourcePool := "",
    Datastore := "", LinkedClone := true }

/-- C4: with LinkedClone true and the inventory lookups succeeding — if
the source template has no snapshot, Clone fails with the precondition
error and never submits a clone task; if it has one, the submitted clone
spec carries disk-move-type "createNewChildDiskBacking" and the source's
current snapshot reference. -/
theorem clone_linkedClone_snapshot (d : CloneEnv) (config : CloneConfig)
    (folder pool : ManagedRef) (ds : Datastore) (info : VirtualMachineSnapshotInfo)
    (hlinked : config.LinkedClone = true)
    (h1 : d.findFolder config.Folder = .ok folder)
    (h2 : d.findResourcePool config.Host config.ResourcePool = .ok pool)
    (h3 : d.findDatastoreOrDefault config.Datastore = .ok ds) :
    (d.infoSnapshot = .ok none →
      (clone d config).1 = .error "`linked_clone=true`, but template has no snapshots" ∧
      (clone d config).2 = none) ∧
    (d.infoSnapshot = .ok (some info) →
      (clone d config).2 = some
        { folder := folder, name := config.Name,
          spec := { location := { pool := some pool, datastore := some ds.ref,
                                  diskMoveType := "createNewChildDiskBacking" },
                    powerOn := false,
                    snapshot := info.currentSnapshot } }) := by
  constructor
  · intro hsnap
    have hprep : clonePrep d config =
        .error "`linked_clone=true`, but template has no snapshots" := by
      simp [clonePrep, h1, h2, h3, hlinked, hsnap]
    constructor
    · simp [clone, hprep]
    · simp [clone, hprep]
  · intro hsnap
    have hprep : clonePrep d config = .ok
        { folder := folder, name := config.Name,
          spec := { location := { pool := some pool, datastore := some ds.ref,
                                  diskMoveType := "createNewChildDiskBacking" },
                    powerOn := false,
                    snapshot := info.currentSnapshot } } := by
      simp [clonePrep, h1, h2, h3, hlinked, hsnap]
    simp [clone, hprep]

/-- C4 witness: the statement at the one-snapshot template environment
with a linked-clone request. -/
theorem clone_linkedClone_snapshot_witness :
    (cloneEnvSnap.infoSnapshot = .ok none →
      (clone cloneEnvSnap cloneCfgLinked).1 =
        .error "`linked_clone=true`, but template has no snapshots" ∧
      (clone cloneEnvSnap cloneCfgLinked).2 = none) ∧
    (cloneEnvSnap.infoSnapshot = .ok (some { currentSnapshot := some 77 }) →
      (clone cloneEnvSnap cloneCfgLinked).2 = some
        { folder := 11, name := cloneCfgLinked.Name,
          spec := { location := { pool := some 12, datastore := some 13,
                                  diskMoveType := "createNewChildDiskBacking" },
                    powerOn := false,
                    snapshot := some 77 } }) :=
  clone_linkedClone_snapshot cloneEnvSnap cloneCfgLinked 11 12
    { ref := 13, name := "ds1", existingFiles := [] }
    { currentSnapshot := some 77 } rfl rfl rfl rfl

/-! ### C6 -/

/-- The device-change list of the call an operation submitted, when it
submitted one. -/
def submittedDeviceChange (r : Except String ManagedRef × Option CreateVMCall) :
    Option (List DeviceChangeSpec) :=
  r.2.map (fun call => call.spec.deviceChange)

/-- The device list CreateVM composes, in order: the IDE controller, the
SCSI controller of the configured type, the disk bound (by key) to that
SCSI controller, and the network adapter. -/
def composedDevices (config : CreateConfig) (backing : String) : List Device :=
  [ { key := -201, controllerKey := none, kind := .ideController },
    { key := -202, controllerKey := none,
      kind := .scsiController (resolveSCSIAlias config.disk.ControllerType) },
    { key := -203, controllerKey := some (-202),
      kind := .disk config.disk.DiskSizeKB config.disk.ThinProvisioned "persistent" },
    { key := 0, controllerKey := none, kind := .ethernetCard backing } ]

/-- `addDisk` on the device list left by the create-time `addCdrom`
appends the SCSI controller and then the disk bound to it. -/
theorem addDisk_concrete (config : CreateConfig)
    (hmem : resolveSCSIAlias config.disk.ControllerType ∈ scsiControllerTypes)
    (hsz : config.disk.DiskSizeKB ≠ 0) :
    addDisk [{ key := -201, controllerKey := none, kind := .ideController }] config =
      .ok [ { key := -201, controllerKey := none, kind := .ideController },
            { key := -202, controllerKey := none,
              kind := .scsiController (resolveSCSIAlias config.disk.ControllerType) },
            { key := -203, controllerKey := some (-202),
              kind := .disk config.disk.DiskSizeKB config.disk.ThinProvisioned
                        "persistent" } ] := by
  have k1 :
      newKey [{ key := -201, controllerKey := none, kind := DeviceKind.ideController }] =
        -202 := rfl
  have hctl : createSCSIController
      [{ key := -201, controllerKey := none, kind := DeviceKind.ideController }]
      config.disk.ControllerType =
      .ok { key := -202, controllerKey := none,
            kind := .scsiController (resolveSCSIAlias config.disk.ControllerType) } := by
    unfold createSCSIController
    rw [if_pos hmem, k1]
  have hfind : findDiskController
      [{ key := -201, controllerKey := none, kind := DeviceKind.ideController },
       { key := -202, controllerKey := none,
         kind := DeviceKind.scsiController (resolveSCSIAlias config.disk.ControllerType) }]
      (-202) =
      .ok { key := -202, controllerKey := none,
            kind := .scsiController (resolveSCSIAlias config.disk.ControllerType) } := rfl
  simp [addDisk, hctl, hfind, hsz, assignController, newKey]

/-- C6: whenever CreateVM succeeds for a config with a positive disk size
— with the network resolvable to a backing and the device-change builder
behaving as the library's (one add-entry per device, in order) — the
submitted device-change set is, in order: the IDE controller, the SCSI
controller, the disk whose controller key is that SCSI controller's key,
and the network adapter; each controller is appended strictly before the
device attaching to it. -/
theorem createVM_device_order (d : DriverEnv) (config : CreateConfig)
    (vmRef network : ManagedRef) (backing : String)
    (hsize : 0 < config.disk.DiskSizeKB)
    (hnet : d.networkOrDefault config.Network = .ok network)
    (hback : d.ethernetCardBackingInfo network = .ok backing)
    (hconf : ∀ devs, d.configSpecForAdd devs = .ok (configSpecAdd devs))
    (hok : (createVM d config).1 = .ok vmRef) :
    submittedDeviceChange (createVM d config) =
      some (configSpecAdd (composedDevices config backing)) := by
  have hne : config.disk.DiskSizeKB ≠ 0 := by omega
  have hfail : ∀ e, createVMPrep d config ≠ .error e := by
    intro e he
    simp [createVM, he] at hok
  have hide : addCdrom [] =
      .ok [{ key := -201, controllerKey := none, kind := DeviceKind.ideController }] := rfl
  have hnetwork : ∀ devs, addNetwork d devs config =
      .ok (devs ++ [{ key := 0, controllerKey := none,
                      kind := DeviceKind.ethernetCard backing }]) := by
    intro devs
    simp [addNetwork, hnet, hback, createEthernetCard]
  cases h1 : d.findFolder config.Folder with
  | error e => exact absurd (by simp [createVMPrep, h1]) (hfail e)
  | ok folder =>
  cases h2 : d.findResourcePool config.Host config.ResourcePool with
  | error e => exact absurd (by simp [createVMPrep, h1, h2]) (hfail e)
  | ok pool =>
  cases h3 : d.findHost config.Host with
  | error e => exact absurd (by simp [createVMPrep, h1, h2, h3]) (hfail e)
  | ok host =>
  cases h4 : d.findDatastoreOrDefault config.Datastore with
  | error e => exact absurd (by simp [createVMPrep, h1, h2, h3, h4]) (hfail e)
  | ok ds =>
  cases hcond : (!config.Force && ds.fileExists (vmxPath config)) with
  | true =>
    have hperr : createVMPrep d config =
        .error ("File " ++ ds.dsPath (vmxPath config) ++ " already exists") := by
      simp [createVMPrep, h1, h2, h3, h4, hcond]
    exact absurd hperr (hfail _)
  | false =>
  by_cases hmem : resolveSCSIAlias config.disk.ControllerType ∈ scsiControllerTypes
  · have hdisk := addDisk_concrete config hmem hne
    have hprep : createVMPrep d config = .ok
        { spec := { config.toConfigSpec with
            deviceChange := configSpecAdd (composedDevices config backing)
            files := some { vmPathName := "[" ++ ds.name ++ "]" } }
          folder := folder, pool := pool, host := host } := by
      simp [createVMPrep, h1, h2, h3, h4, hcond, hide, hdisk, hnetwork, hconf,
        composedDevices]
    simp [submittedDeviceChange, createVM, hprep]
  · have hdisk : addDisk
        [{ key := -201, controllerKey := none, kind := DeviceKind.ideController }] config =
        .error ("unknown SCSI controller type " ++
          resolveSCSIAlias config.disk.ControllerType) := by
      simp [addDisk, createSCSIController, hmem]
    have hperr : createVMPrep d config =
        .error ("unknown SCSI controller type " ++
          resolveSCSIAlias config.disk.ControllerType) := by
      simp [createVMPrep, h1, h2, h3, h4, hcond, hide, hdisk]
    exact absurd hperr (hfail _)

/-- An empty datastore. -/
def dsFresh : Datastore := { ref := 4, name := "datastore1", existingFiles := [] }

/-- A driver environment whose lookups all succeed and whose datastore is
empty. -/
def envFresh : DriverEnv :=
  { findFolder := fun _ => .ok 1
    findResourcePool := fun _ _ => .ok 2
    findHost := fun _ => .ok 3
    findDatastoreOrDefault := fun _ => .ok dsFresh
    networkOrDefault := fun _ => .ok 5
    ethernetCardBackingInfo := fun _ => .ok "VM Network"
    configSpecForAdd := fun devs => .ok (configSpecAdd devs)
    createVMResult := fun _ => .ok 9 }

/-- A 20 GB pvscsi create request. -/
def cfgCreate : CreateConfig :=
  { hardware := hwSmall
    disk := { DiskSizeKB := 20971520, ThinProvisioned := true, ControllerType := "pvscsi" }
    annot := "", Name := "tpl1", Folder := "", Host := "esxi-1", ResourcePool := "",
    Datastore := "", GuestOS := "otherGuest", Network := "VM Network", Force := false }

/-- C6 witness: the statement at the fresh environment and the concrete
20 GB pvscsi request. -/
theorem createVM_device_order_witness :
    submittedDeviceChange (createVM envFresh cfgCreate) =
      some (configSpecAdd (composedDevices cfgCreate "VM Network")) :=
  createVM_device_order envFresh cfgCreate 9 5 "VM Network" (by decide) rfl rfl
    (fun _ => rfl) rfl

end VSphere
